import Mathlib

/-!
Verification of the authentication and session-identity subsystem of the
Node boilerplate server: the `UserController` (registration, login,
credential validation) from the controller module, and the session/CSRF
middleware pipeline wired in `main.js` (`setupSessionAndFlash`,
`setupCSRFProtection`, `setupGlobalMiddlewaresAndRoutes`).

JavaScript values relevant to the embedded code are strings that may be
absent (`undefined`); we model them as `Option String`, and make JS
truthiness (`undefined` and `""` are falsy) explicit. Thrown JS exceptions
are modelled as `Except.error msg` where `msg` is the exception's
`.message`.
-/

namespace Boilerplate

/-- JS truthiness of a possibly-absent string: `undefined` (here `none`) and
the empty string are falsy, every other string is truthy. -/
def jsFalsy : Option String → Bool
  | none => true
  | some s => s = ""

/-- JS `a || b` on possibly-absent strings: yields `b` when `a` is falsy. -/
def jsOr (a b : Option String) : Option String :=
  if jsFalsy a then b else a

/-- Splits a character list at every occurrence of `@`, like
`String.splitOn "@"`: the result has one more fragment than the input has
`@`s, and no fragment contains `@`. -/
def splitOnAt : List Char → List (List Char)
  | [] => [[]]
  | c :: t =>
    match splitOnAt t with
    | [] => if c = '@' then [[], []] else [[c]]
    | h :: r => if c = '@' then [] :: h :: r else (c :: h) :: r

/-- Holds when no character of the list is whitespace; models the complement
class `[^\s@]` of the email regex together with the absence of `@` that the
`splitOnAt` decomposition below already guarantees (JS `\s` is modelled by
`Char.isWhitespace`). -/
def noWsChars (cs : List Char) : Bool :=
  cs.all (fun c => !c.isWhitespace)

/-- Holds when the list contains a dot that is neither its first nor its
last character; this is exactly when `[^\s@]+\.[^\s@]+` matches a whole
`@`-free, whitespace-free string, since `[^\s@]` also matches dots. -/
def innerDot (cs : List Char) : Bool :=
  (List.range cs.length).any (fun i =>
    decide (0 < i) && decide (i + 1 < cs.length) && (cs.getD i ' ' == '.'))

/-- The test `emailRegex.test(email)` for the controller's regex
`/^[^\s@]+@[^\s@]+\.[^\s@]+$/` (line 309): the string splits at a unique `@`
into a non-empty whitespace-free local part and a whitespace-free domain
containing an inner dot. `splitOnAt` returns exactly two fragments precisely
when the string has exactly one `@`, and the fragments are `@`-free by
construction. -/
def emailRegexTest (s : String) : Bool :=
  match splitOnAt s.toList with
  | [l, d] => decide (l ≠ []) && noWsChars l && noWsChars d && innerDot d
  | _ => false

/-- The method `UserController.validateUserData` (lines 300-320): required
fields, email shape, then password length, throwing the first applicable
error. JS `password.length` counts UTF-16 units; `String.length` counts
code points, which agree on the inputs considered here. -/
def validateUserData (name surname email password : Option String) :
    Except String Unit :=
  if jsFalsy name || jsFalsy surname || jsFalsy email || jsFalsy password then
    Except.error "All fields (name, surname, email, password) are required."
  else if !emailRegexTest (email.getD "") then
    Except.error "Invalid email format."
  else if (password.getD "").toList.length < 8 then
    Except.error "Password must be at least 8 characters long."
  else
    Except.ok ()

/-- The database backend. The controller module's load-time guard
(lines 172-183) throws unless `process.env.DB_TYPE` is `"mongo"` or
`"mysql"`, so by the time any controller method runs the backend is one of
these two. -/
inductive DbType where
  | mongo
  | mysql
  deriving DecidableEq, Repr

/-- A persisted user record as the store returns it (`createdUser.toJSON()`).
MongoDB documents carry `_id`, MySQL rows carry `id`; both fields are kept so
that the controller's `user.id || user._id` fallback can be embedded as
written. -/
structure StoredUser where
  id : Option String
  _id : Option String
  name : Option String
  surname : Option String
  email : Option String
  password : Option String
  bio : Option String
  profilePicture : Option String
  birthDate : Option String
  role : String
  deriving DecidableEq, Repr

/-- The response payload after `delete userResponse.password` (line 237): the
stored record with the password field removed. -/
structure UserResponse where
  id : Option String
  _id : Option String
  name : Option String
  surname : Option String
  email : Option String
  bio : Option String
  profilePicture : Option String
  birthDate : Option String
  role : String
  deriving DecidableEq, Repr

/-- The spread-then-delete at lines 236-237: copy every field of the stored
record except `password`. -/
def sanitizeUser (u : StoredUser) : UserResponse :=
  { id := u.id, _id := u._id, name := u.name, surname := u.surname,
    email := u.email, bio := u.bio, profilePicture := u.profilePicture,
    birthDate := u.birthDate, role := u.role }

/-- `UserModel.findOne({ email })` (mongo) and
`UserModel.findOne({ where: { email } })` (mysql): first record whose email
equals the queried value. -/
def findOne (store : List StoredUser) (email : Option String) :
    Option StoredUser :=
  store.find? (fun u => u.email == email)

/-- A body a registration response can carry. -/
inductive ResponseBody where
  | errorMsg (msg : String)
  | user (u : UserResponse)
  deriving DecidableEq, Repr

/-- The top-level bindings of the controller module: its imports (`jwt`,
`logger`, `dotenvExpand`), the `let UserModel`, and the class declaration
`UserController`. `validateUserData` is NOT among them: a JS class method is
a property of the prototype, not a lexical binding, so inside `create` the
bare identifier `validateUserData` (line 202, written without `this.`)
resolves against this module scope, fails, and evaluating it throws
`ReferenceError: validateUserData is not defined`. -/
def controllerModuleScope : List String :=
  ["jwt", "logger", "dotenvExpand", "UserModel", "UserController"]

/-- The parsed request body for registration, `req.body` destructured at
line 199. -/
structure CreateBody where
  name : Option String
  surname : Option String
  email : Option String
  password : Option String
  bio : Option String
  profilePicture : Option String
  birthDate : Option String
  role : Option String
  deriving DecidableEq, Repr

/-- The `try` block of `UserController.create` (lines 188-239). `body` is
`req.body` (`none` when no body parser matched the request), `newId` is the
id the store would assign to an inserted record. An `Except.error msg` is a
JS exception (with `.message = msg`) escaping the try block; in particular
the bare call `validateUserData(...)` at line 202 throws `ReferenceError`
because the identifier is unbound (see `controllerModuleScope`) — the
validation, duplicate lookup and insert below it are never reached, though
they are embedded as written. -/
def createTry (body : Option CreateBody) (dbType : DbType)
    (store : List StoredUser) (newId : String) :
    Except String ((Nat × ResponseBody) × List StoredUser) :=
  match body with
  | none =>
    Except.ok ((400, ResponseBody.errorMsg "Request body is missing."), store)
  | some b =>
    if controllerModuleScope.contains "validateUserData" then
      match validateUserData b.name b.surname b.email b.password with
      | Except.error msg => Except.error msg
      | Except.ok () =>
        match findOne store b.email with
        | some _ =>
          Except.ok
            ((400, ResponseBody.errorMsg "User with this email already exists."),
             store)
        | none =>
          let created : StoredUser :=
            { id := (match dbType with
                     | DbType.mysql => some newId
                     | DbType.mongo => none),
              _id := (match dbType with
                      | DbType.mongo => some newId
                      | DbType.mysql => none),
              name := b.name, surname := b.surname, email := b.email,
              password := b.password, bio := b.bio,
              profilePicture := b.profilePicture, birthDate := b.birthDate,
              role := (jsOr b.role (some "User")).getD "User" }
          Except.ok ((201, ResponseBody.user (sanitizeUser created)),
                     store ++ [created])
    else
      Except.error "validateUserData is not defined"

/-- `UserController.create` (lines 187-244): the try block, with the catch
(lines 240-243) translating any thrown error into
`res.status(400).json({ error: error.message })` and leaving the store
untouched. -/
def create (body : Option CreateBody) (dbType : DbType)
    (store : List StoredUser) (newId : String) :
    (Nat × ResponseBody) × List StoredUser :=
  match createTry body dbType store newId with
  | Except.ok r => r
  | Except.error msg => ((400, ResponseBody.errorMsg msg), store)

/-- The result of the controller's `user.id || user._id` fallback
(lines 260 and 268), which handles both MySQL and MongoDB record ids. -/
def jsUserId (u : StoredUser) : Option String :=
  jsOr u.id u._id

/-- The request's session record: `req.session.csrfSecret` installed by
`setupCSRFProtection`, and `req.session.user` written by session-mode login. -/
structure SessionState where
  csrfSecret : Option String
  user : Option (Option String × Option String)
  deriving DecidableEq, Repr

/-- The token produced by `jwt.sign({id, email}, secret, {expiresIn: '1h'})`
at lines 259-263, embedded per the jsonwebtoken contract the spec relies on:
the signed claims are the payload `{id, email}` plus issued-at `iat` and
expiry `exp`, where `expiresIn: '1h'` means `exp = iat + 3600` seconds;
`secret` records the server-held signing key. -/
structure AuthToken where
  id : Option String
  email : Option String
  iat : Nat
  exp : Nat
  secret : String
  deriving DecidableEq, Repr

/-- The call `jwt.sign(payload, secret, {expiresIn: '1h'})` issued at
time `now`. -/
def jwtSign (id email : Option String) (secret : String) (now : Nat) :
    AuthToken :=
  { id := id, email := email, iat := now, exp := now + 3600, secret := secret }

/-- A login response: `res.status(401).json({error})`,
`res.json({token})` (status 200), `res.json({message})` (status 200), or
`res.status(500).json({error})`. -/
inductive LoginResult where
  | unauthorized (msg : String)
  | token (t : AuthToken)
  | message (msg : String)
  | serverError (msg : String)
  deriving DecidableEq, Repr

/-- The HTTP status of each login response shape. -/
def LoginResult.status : LoginResult → Nat
  | unauthorized _ => 401
  | token _ => 200
  | message _ => 200
  | serverError _ => 500

/-- The method `UserController.validateUser` (lines 276-298): look the user
up by email and check the candidate password. `comparePassword` is defined
in the user model files, which are not under `src/`; per the spec a record
"can verify a candidate password against its stored credential", so the
comparison is abstracted as the parameter `check`. Returns the user on
success and `null` (`none`) both when no record has the email and when the
comparison rejects the password. -/
def validateUser (check : StoredUser → String → Bool)
    (store : List StoredUser) (email password : String) : Option StoredUser :=
  match findOne store (some email) with
  | some u => if check u password then some u else none
  | none => none

/-- The method `UserController.login` (lines 245-273). `typeAuth` is
`process.env.TYPEAUTH`, `jwtSecretEnv` is `process.env.JWTSECRET` (defaulted
to `"defaultsecret"` by `||`), `now` is the issuance instant, `sess` the
request's session. Returns the response together with the resulting
session. -/
def login (typeAuth jwtSecretEnv : Option String)
    (check : StoredUser → String → Bool) (store : List StoredUser)
    (email password : String) (now : Nat) (sess : SessionState) :
    LoginResult × SessionState :=
  match validateUser check store email password with
  | none => (LoginResult.unauthorized "Invalid email or password", sess)
  | some user =>
    if typeAuth = some "JWT" then
      (LoginResult.token
        (jwtSign (jsUserId user) user.email
          ((jsOr jwtSecretEnv (some "defaultsecret")).getD "defaultsecret") now),
       sess)
    else if typeAuth = some "session" then
      (LoginResult.message "Logged in successfully",
       { sess with user := some (jsUserId user, user.email) })
    else
      (LoginResult.serverError "Invalid authentication type", sess)

/-- Lower-case hexadecimal digits, as `Buffer.prototype.toString('hex')`
produces them. -/
def hexDigit (n : Nat) : Char :=
  "0123456789abcdef".toList.getD n '0'

/-- Hex encoding of a byte list: two digits per byte. -/
def hexChars : List Nat → List Char
  | [] => []
  | b :: t => hexDigit (b / 16) :: hexDigit (b % 16) :: hexChars t

/-- `crypto.randomBytes(32).toString('hex')` (line 118), with `bs` the
random bytes the OS entropy source returned. -/
def bytesToHex (bs : List Nat) : String :=
  String.mk (hexChars bs)

/-- The outcome of one Express middleware: `next()` or `next(err)` (the
latter diverts the request to error-handling middleware). -/
inductive MwOutcome where
  | nextOk
  | nextErr (msg : String)
  deriving DecidableEq, Repr

/-- What the CSRF bootstrap middleware leaves behind: the in-memory session,
the session state written durably by `req.session.save` (if any save
succeeded), and how the middleware continued. -/
structure BootstrapResult where
  sess : SessionState
  persisted : Option SessionState
  outcome : MwOutcome
  deriving DecidableEq, Repr

/-- The CSRF-secret bootstrap middleware of `setupCSRFProtection`
(lines 116-126). `bytes` are the 32 random bytes `crypto.randomBytes(32)`
returns; `saveErr` is the session store's reply to `req.session.save`
(`some msg` is a failure). When the session's secret is JS-truthy the
middleware only calls `next()`; when it is falsy the middleware installs the
hex-encoded secret and calls `next` exclusively from the `save` callback:
`next()` after a successful persist, `return next(err)` on failure. -/
def csrfBootstrap (sess : SessionState) (bytes : List Nat)
    (saveErr : Option String) : BootstrapResult :=
  if jsFalsy sess.csrfSecret then
    let sess2 : SessionState := { sess with csrfSecret := some (bytesToHex bytes) }
    match saveErr with
    | some e => { sess := sess2, persisted := none, outcome := MwOutcome.nextErr e }
    | none => { sess := sess2, persisted := some sess2, outcome := MwOutcome.nextOk }
  else
    { sess := sess, persisted := none, outcome := MwOutcome.nextOk }

/-- The safe methods excluded from CSRF verification: the `ignoredMethods`
option at line 112. -/
def ignoredMethods : List String :=
  ["GET", "HEAD", "OPTIONS"]

/-- An inbound HTTP request as the core pipeline sees it. -/
structure HttpRequest where
  method : String
  path : String
  csrfProof : Option String
  body : Option CreateBody
  loginEmail : String
  loginPassword : String

/-- Modelled from the spec: `doubleCsrfProtection`, the csrf-csrf library
middleware configured at lines 103-113, whose body is library code not under
`src/`. Per the spec: "for any request whose method is not in the safe set
{GET, HEAD, OPTIONS}, require a client-supplied proof token (via header or
cookie per policy) that verifies against the session's secret; on failure,
reject with a CSRF error (HTTP 403-class) before the request reaches route
handlers". `verifies` abstracts the library's verification of the supplied
proof against the session secret; the `ignoredMethods` configured in
`main.js` are exempt. -/
def doubleCsrfProtection (verifies : Option String → Option String → Bool)
    (req : HttpRequest) (sess : SessionState) : MwOutcome :=
  if ignoredMethods.contains req.method then MwOutcome.nextOk
  else if verifies req.csrfProof sess.csrfSecret then MwOutcome.nextOk
  else MwOutcome.nextErr "invalid csrf token"

/-- Environment configuration the routed handlers read. -/
structure ServerEnv where
  dbType : DbType
  typeAuth : Option String
  jwtSecretEnv : Option String

/-- The response the pipeline produces for a request. -/
inductive PipelineResult where
  | infraError (msg : String)
  | csrfRejected (status : Nat)
  | routeCreated (status : Nat) (body : ResponseBody)
  | routeLogin (r : LoginResult)
  | notFound
  deriving Repr

/-- The request pipeline as wired in `connectAndSetup` (lines 150-156):
session resolution, then the CSRF-secret bootstrap and `doubleCsrfProtection`
added by `setupCSRFProtection` (lines 116-132; the per-response token
middleware at lines 129-132 passes the request through), then
`middleWareGlobal` (not under `src/`; per the spec, plumbing that passes the
request through), then `checkCSRFError` (not under `src/`; modelled from the
spec: translates the CSRF error raised by the guard into the HTTP 403-class
rejection before any route runs), then the routes (`routes.js` is not under
`src/`; modelled from the spec's external interfaces: `POST /users` runs
`create`, `POST /login` runs `login`). Returns the response together with
the resulting user store and session. -/
def runPipeline (env : ServerEnv)
    (verifies : Option String → Option String → Bool)
    (check : StoredUser → String → Bool) (req : HttpRequest)
    (store : List StoredUser) (sess0 : SessionState) (bytes : List Nat)
    (saveErr : Option String) (newId : String) (now : Nat) :
    PipelineResult × List StoredUser × SessionState :=
  let b := csrfBootstrap sess0 bytes saveErr
  match b.outcome with
  | MwOutcome.nextErr e => (PipelineResult.infraError e, store, b.sess)
  | MwOutcome.nextOk =>
    match doubleCsrfProtection verifies req b.sess with
    | MwOutcome.nextErr _ => (PipelineResult.csrfRejected 403, store, b.sess)
    | MwOutcome.nextOk =>
      if req.path = "/users" && req.method = "POST" then
        let r := create req.body env.dbType store newId
        (PipelineResult.routeCreated r.1.1 r.1.2, r.2, b.sess)
      else if req.path = "/login" && req.method = "POST" then
        let r := login env.typeAuth env.jwtSecretEnv check store
          req.loginEmail req.loginPassword now b.sess
        (PipelineResult.routeLogin r.1, store, r.2)
      else
        (PipelineResult.notFound, store, b.sess)

/-- The valid registration input of the spec's concrete scenario (§8.7):
all required fields present, well-shaped email, password of length 10. -/
def sampleValidBody : CreateBody :=
  { name := some "A", surname := some "B", email := some "a@b.com",
    password := some "longenough", bio := none, profilePicture := none,
    birthDate := none, role := none }

/-- A registration input that fails the password-length validation rule:
its password has 5 characters. -/
def shortPwBody : CreateBody :=
  { name := some "A", surname := some "B", email := some "a@b.com",
    password := some "short", bio := none, profilePicture := none,
    birthDate := none, role := none }

/-- A user record already persisted under the email `dup@mail.com`. -/
def dupUser : StoredUser :=
  { id := some "u1", _id := none, name := some "C", surname := some "D",
    email := some "dup@mail.com", password := some "secretpw1", bio := none,
    profilePicture := none, birthDate := none, role := "User" }

/-- A registration input whose email collides with `dupUser`. -/
def dupBody : CreateBody :=
  { name := some "E", surname := some "F", email := some "dup@mail.com",
    password := some "longenough", bio := none, profilePicture := none,
    birthDate := none, role := none }

/-- A stored MongoDB-style user record (the id lives in `_id`). -/
def mongoUser : StoredUser :=
  { id := none, _id := some "id1", name := some "A", surname := some "B",
    email := some "a@b.com", password := some "hash", bio := none,
    profilePicture := none, birthDate := none, role := "User" }

/-- A stored MySQL-style user record (the id lives in `id`). -/
def mysqlUser : StoredUser :=
  { id := some "7", _id := none, name := some "A", surname := some "B",
    email := some "a@b.com", password := some "hash", bio := none,
    profilePicture := none, birthDate := none, role := "User" }

theorem hexChars_length (bs : List Nat) :
    (hexChars bs).length = 2 * bs.length := by
  induction bs with
  | nil => rfl
  | cons b t ih => simp [hexChars, ih]; omega

theorem bytesToHex_length (bs : List Nat) :
    (bytesToHex bs).length = 2 * bs.length :=
  hexChars_length bs

theorem bytesToHex_truthy (bs : List Nat) (h : bs.length = 32) :
    jsFalsy (some (bytesToHex bs)) = false := by
  simp only [jsFalsy, decide_eq_false_iff_not]
  intro hc
  have hl := bytesToHex_length bs
  rw [hc, h] at hl
  simp [String.length] at hl

/-- Claim C1, evaluated at the failing input: the spec-§8.7 registration input
is valid (it passes `validateUserData`) and its email is unused in the empty
store, yet `create` responds 400 with the `ReferenceError` message from the
unbound bare call `validateUserData(...)` and inserts nothing — never the
claimed 201 with the sanitized stored user. -/
theorem create_valid_input_rejected :
    validateUserData sampleValidBody.name sampleValidBody.surname
        sampleValidBody.email sampleValidBody.password = Except.ok ()
  ∧ create (some sampleValidBody) DbType.mongo [] "u1"
      = ((400, ResponseBody.errorMsg "validateUserData is not defined"), []) :=
  ⟨rfl, rfl⟩

/-- Claim C2, counterexample to the universal quantifier: a request whose
body no parser set leaves through the early `return` at line 196, not
through the catch branch — `createTry` yields `ok` (no exception was
thrown), with the body-missing message instead of the `ReferenceError`
message. -/
theorem create_missing_body_skips_catch :
    createTry none DbType.mongo [] "u1"
      = Except.ok ((400, ResponseBody.errorMsg "Request body is missing."), [])
  ∧ ResponseBody.errorMsg "Request body is missing."
      ≠ ResponseBody.errorMsg "validateUserData is not defined" :=
  ⟨rfl, by decide⟩

/-- Claim C2 as amended: for every request whose parsed body is present, the
bare call `validateUserData(...)` throws `ReferenceError` before any
validation runs, diverting `create` to the catch branch; and every
invocation of `create` whatsoever responds 400, never 201, and never
changes the user store. -/
theorem create_always_throws (dbType : DbType) (store : List StoredUser)
    (newId : String) :
    (∀ b : CreateBody,
       createTry (some b) dbType store newId
         = Except.error "validateUserData is not defined")
  ∧ (∀ body : Option CreateBody,
       (create body dbType store newId).1.1 = 400
     ∧ (create body dbType store newId).2 = store) := by
  constructor
  · intro b; rfl
  · intro body
    cases body with
    | none => exact ⟨rfl, rfl⟩
    | some b => exact ⟨rfl, rfl⟩

/-- Claim C3: whether the email matches no record or the record's password
comparison rejects the candidate, `login` returns the very same response —
status 401 with the single generic invalid-credentials error — and leaves
the session unchanged, so the two failure causes are indistinguishable to
the caller. -/
theorem login_failures_indistinguishable (typeAuth jwtSecretEnv : Option String)
    (check : StoredUser → String → Bool) (store : List StoredUser)
    (email password : String) (now : Nat) (sess : SessionState)
    (h : findOne store (some email) = none
       ∨ ∃ u, findOne store (some email) = some u ∧ check u password = false) :
    login typeAuth jwtSecretEnv check store email password now sess
      = (LoginResult.unauthorized "Invalid email or password", sess)
  ∧ (LoginResult.unauthorized "Invalid email or password").status = 401 := by
  refine ⟨?_, rfl⟩
  have hn : validateUser check store email password = none := by
    unfold validateUser
    rcases h with h | ⟨u, hu, hc⟩
    · rw [h]
    · rw [hu]
      simp [hc]
  unfold login
  rw [hn]

/-- Claim C3 witness: the unknown-email case at a concrete input. -/
theorem login_failures_indistinguishable_witness :
    login none none (fun _ _ => false) [] "a@b.com" "pw" 0
        { csrfSecret := none, user := none }
      = (LoginResult.unauthorized "Invalid email or password",
         { csrfSecret := none, user := none })
  ∧ (LoginResult.unauthorized "Invalid email or password").status = 401 :=
  login_failures_indistinguishable none none (fun _ _ => false) [] "a@b.com"
    "pw" 0 { csrfSecret := none, user := none } (Or.inl rfl)

/-- Claim C4: with `TYPEAUTH = 'JWT'`, a successful login returns a token
signed with the server-held secret whose subject is exactly the
authenticated user's `{id, email}` (with the `id || _id` fallback), issued
at `now` and expiring exactly 3600 seconds later, and the session is
returned unchanged — no server-side state is created. -/
theorem login_jwt_token (jwtSecretEnv : Option String)
    (check : StoredUser → String → Bool) (store : List StoredUser)
    (email password : String) (now : Nat) (sess : SessionState)
    (u : StoredUser) (h : validateUser check store email password = some u) :
    login (some "JWT") jwtSecretEnv check store email password now sess
      = (LoginResult.token
          { id := jsUserId u, email := u.email, iat := now, exp := now + 3600,
            secret := (jsOr jwtSecretEnv (some "defaultsecret")).getD
              "defaultsecret" },
         sess) := by
  unfold login
  rw [h]
  simp [jwtSign]

/-- Claim C4 witness: JWT-mode login against a one-user MongoDB-style store. -/
theorem login_jwt_token_witness :
    login (some "JWT") none (fun _ _ => true) [mongoUser] "a@b.com"
        "longenough" 100 { csrfSecret := none, user := none }
      = (LoginResult.token
          { id := some "id1", email := some "a@b.com", iat := 100,
            exp := 100 + 3600, secret := "defaultsecret" },
         { csrfSecret := none, user := none }) :=
  login_jwt_token none (fun _ _ => true) [mongoUser] "a@b.com" "longenough"
    100 { csrfSecret := none, user := none } mongoUser rfl

/-- Claim C5: with `TYPEAUTH = 'session'`, a successful login writes the
authenticated user's `{id, email}` into the request's session, responds with
the success acknowledgment message, and the response carries no token. -/
theorem login_session_mode (jwtSecretEnv : Option String)
    (check : StoredUser → String → Bool) (store : List StoredUser)
    (email password : String) (now : Nat) (sess : SessionState)
    (u : StoredUser) (h : validateUser check store email password = some u) :
    login (some "session") jwtSecretEnv check store email password now sess
      = (LoginResult.message "Logged in successfully",
         { sess with user := some (jsUserId u, u.email) })
  ∧ (∀ t, (login (some "session") jwtSecretEnv check store email password now
        sess).1 ≠ LoginResult.token t) := by
  have h1 : login (some "session") jwtSecretEnv check store email password now
      sess
      = (LoginResult.message "Logged in successfully",
         { sess with user := some (jsUserId u, u.email) }) := by
    unfold login
    rw [h]
    simp
  refine ⟨h1, ?_⟩
  intro t
  rw [h1]
  simp

/-- Claim C5 witness: session-mode login against a one-user MySQL-style
store, landing the user's id and email in the session. -/
theorem login_session_mode_witness :
    login (some "session") none (fun _ _ => true) [mysqlUser] "a@b.com"
        "longenough" 5 { csrfSecret := some "sec", user := none }
      = (LoginResult.message "Logged in successfully",
         { csrfSecret := some "sec", user := some (some "7", some "a@b.com") })
  ∧ (∀ t, (login (some "session") none (fun _ _ => true) [mysqlUser] "a@b.com"
        "longenough" 5 { csrfSecret := some "sec", user := none }).1
        ≠ LoginResult.token t) :=
  login_session_mode none (fun _ _ => true) [mysqlUser] "a@b.com" "longenough"
    5 { csrfSecret := some "sec", user := none } mysqlUser rfl

/-- Claim C6: when `TYPEAUTH` is neither `'JWT'` nor `'session'`, a login
with valid credentials responds 500 with the misconfiguration error — a
server error, not a client error — and the session is unchanged. -/
theorem login_misconfigured_auth (typeAuth jwtSecretEnv : Option String)
    (check : StoredUser → String → Bool) (store : List StoredUser)
    (email password : String) (now : Nat) (sess : SessionState)
    (u : StoredUser) (hu : validateUser check store email password = some u)
    (h1 : typeAuth ≠ some "JWT") (h2 : typeAuth ≠ some "session") :
    login typeAuth jwtSecretEnv check store email password now sess
      = (LoginResult.serverError "Invalid authentication type", sess)
  ∧ (LoginResult.serverError "Invalid authentication type").status = 500 := by
  refine ⟨?_, rfl⟩
  unfold login
  rw [hu]
  simp [h1, h2]

/-- Claim C6 witness: valid credentials under the unrecognized mode
`'Basic'`. -/
theorem login_misconfigured_auth_witness :
    login (some "Basic") none (fun _ _ => true) [mysqlUser] "a@b.com"
        "longenough" 5 { csrfSecret := none, user := none }
      = (LoginResult.serverError "Invalid authentication type",
         { csrfSecret := none, user := none })
  ∧ (LoginResult.serverError "Invalid authentication type").status = 500 :=
  login_misconfigured_auth (some "Basic") none (fun _ _ => true) [mysqlUser]
    "a@b.com" "longenough" 5 { csrfSecret := none, user := none } mysqlUser
    rfl (by decide) (by decide)

/-- Claim C7, evaluated at the failing input: the short-password input would
earn the specific validation error from `validateUserData`, but `create`
never reaches it — the response is 400 with the `ReferenceError` message
instead of the claimed validation message (no record is created, as it
happens). -/
theorem create_short_password_wrong_error :
    validateUserData shortPwBody.name shortPwBody.surname shortPwBody.email
        shortPwBody.password
      = Except.error "Password must be at least 8 characters long."
  ∧ create (some shortPwBody) DbType.mongo [] "u2"
      = ((400, ResponseBody.errorMsg "validateUserData is not defined"), []) :=
  ⟨rfl, rfl⟩

/-- Claim C8, evaluated at the failing input: the store already holds a user
with the requested email, yet `create` responds 400 with the
`ReferenceError` message — the duplicate pre-check never runs and the
conflict message is never produced (nothing is inserted, as it happens). -/
theorem create_duplicate_email_wrong_error :
    (findOne [dupUser] dupBody.email).isSome = true
  ∧ create (some dupBody) DbType.mysql [dupUser] "u3"
      = ((400, ResponseBody.errorMsg "validateUserData is not defined"),
         [dupUser]) :=
  ⟨rfl, rfl⟩

/-- Claim C9: the CSRF bootstrap middleware preserves the one-secret-per-
session invariant — a session already holding a (truthy) secret passes
through completely unchanged with no save; a session lacking one gets the
hex encoding of the 32 fresh random bytes (64 characters), which is
persisted by `req.session.save` before `next()` runs, a save failure makes
the middleware abort via `next(err)` instead of continuing, and any later
run of the middleware on the resulting session regenerates nothing. -/
theorem csrf_bootstrap_invariant (sess : SessionState) (bytes : List Nat)
    (saveErr : Option String) (hlen : bytes.length = 32) :
    (jsFalsy sess.csrfSecret = false →
       csrfBootstrap sess bytes saveErr
         = { sess := sess, persisted := none, outcome := MwOutcome.nextOk })
  ∧ (jsFalsy sess.csrfSecret = true →
       (csrfBootstrap sess bytes saveErr).sess.csrfSecret
           = some (bytesToHex bytes)
     ∧ (bytesToHex bytes).length = 64
     ∧ ((csrfBootstrap sess bytes saveErr).outcome = MwOutcome.nextOk
          ↔ saveErr = none)
     ∧ (saveErr = none →
          (csrfBootstrap sess bytes saveErr).persisted
            = some (csrfBootstrap sess bytes saveErr).sess)
     ∧ (∀ e, saveErr = some e →
          (csrfBootstrap sess bytes saveErr).outcome = MwOutcome.nextErr e)
     ∧ (∀ bytes2 saveErr2,
          csrfBootstrap (csrfBootstrap sess bytes saveErr).sess bytes2 saveErr2
            = { sess := (csrfBootstrap sess bytes saveErr).sess,
                persisted := none, outcome := MwOutcome.nextOk })) := by
  constructor
  · intro hf
    simp [csrfBootstrap, hf]
  · intro hf
    have hx : (bytesToHex bytes).length = 64 := by
      rw [bytesToHex_length, hlen]
    cases saveErr with
    | none =>
      refine ⟨by simp [csrfBootstrap, hf], hx, by simp [csrfBootstrap, hf],
        ?_, ?_, ?_⟩
      · intro _
        simp [csrfBootstrap, hf]
      · intro e he
        exact absurd he (by simp)
      · intro bytes2 saveErr2
        simp only [csrfBootstrap, hf]
        simp [csrfBootstrap, bytesToHex_truthy bytes hlen]
    | some e =>
      refine ⟨by simp [csrfBootstrap, hf], hx, by simp [csrfBootstrap, hf],
        ?_, ?_, ?_⟩
      · intro hc
        exact absurd hc (by simp)
      · intro e2 he2
        rw [Option.some.injEq] at he2
        subst he2
        simp [csrfBootstrap, hf]
      · intro bytes2 saveErr2
        simp only [csrfBootstrap, hf]
        simp [csrfBootstrap, bytesToHex_truthy bytes hlen]

/-- Claim C9 witness: bootstrapping a fresh session with 32 zero bytes
installs the 64-character hex secret. -/
theorem csrf_bootstrap_invariant_witness :
    (csrfBootstrap { csrfSecret := none, user := none }
        (List.replicate 32 0) none).sess.csrfSecret
      = some (bytesToHex (List.replicate 32 0))
  ∧ (bytesToHex (List.replicate 32 0)).length = 64 :=
  ⟨((csrf_bootstrap_invariant { csrfSecret := none, user := none }
      (List.replicate 32 0) none (by decide)).2 rfl).1,
   ((csrf_bootstrap_invariant { csrfSecret := none, user := none }
      (List.replicate 32 0) none (by decide)).2 rfl).2.1⟩

/-- Claim C10: a request whose method is outside the safe set
{GET, HEAD, OPTIONS} and whose proof token does not verify against the
session's secret is answered by the 403 CSRF rejection — the user store is
untouched and the session identity unchanged, so neither the registration
nor the login handler ran — while any request with a safe method passes the
CSRF check regardless of its proof. -/
theorem csrf_guard_blocks_unproved (env : ServerEnv)
    (verifies : Option String → Option String → Bool)
    (check : StoredUser → String → Bool) (req : HttpRequest)
    (store : List StoredUser) (sess0 : SessionState) (bytes : List Nat)
    (newId : String) (now : Nat)
    (hm : ignoredMethods.contains req.method = false)
    (hv : verifies req.csrfProof
        (csrfBootstrap sess0 bytes none).sess.csrfSecret = false) :
    runPipeline env verifies check req store sess0 bytes none newId now
      = (PipelineResult.csrfRejected 403, store,
         (csrfBootstrap sess0 bytes none).sess)
  ∧ (csrfBootstrap sess0 bytes none).sess.user = sess0.user
  ∧ (∀ req2 sess2, ignoredMethods.contains req2.method = true →
       doubleCsrfProtection verifies req2 sess2 = MwOutcome.nextOk) := by
  refine ⟨?_, ?_, ?_⟩
  · unfold runPipeline
    cases hf : jsFalsy sess0.csrfSecret <;>
      simp_all [csrfBootstrap, doubleCsrfProtection, hm, hv]
  · cases hf : jsFalsy sess0.csrfSecret <;> simp [csrfBootstrap, hf]
  · intro req2 sess2 h2
    unfold doubleCsrfProtection
    rw [h2]
    rfl

/-- Claim C10 witness: an unproved POST to the registration route on an
empty store is rejected with 403 and nothing changes. -/
theorem csrf_guard_blocks_unproved_witness :
    runPipeline { dbType := DbType.mongo, typeAuth := none, jwtSecretEnv := none }
        (fun _ _ => false) (fun _ _ => false)
        { method := "POST", path := "/users", csrfProof := none, body := none,
          loginEmail := "", loginPassword := "" }
        [] { csrfSecret := none, user := none } (List.replicate 32 0) none
        "u9" 0
      = (PipelineResult.csrfRejected 403, [],
         (csrfBootstrap { csrfSecret := none, user := none }
            (List.replicate 32 0) none).sess)
  ∧ (csrfBootstrap { csrfSecret := none, user := none }
        (List.replicate 32 0) none).sess.user
      = ({ csrfSecret := none, user := none } : SessionState).user
  ∧ (∀ req2 sess2, ignoredMethods.contains req2.method = true →
       doubleCsrfProtection (fun _ _ => false) req2 sess2
         = MwOutcome.nextOk) :=
  csrf_guard_blocks_unproved
    { dbType := DbType.mongo, typeAuth := none, jwtSecretEnv := none }
    (fun _ _ => false) (fun _ _ => false)
    { method := "POST", path := "/users", csrfProof := none, body := none,
      loginEmail := "", loginPassword := "" }
    [] { csrfSecret := none, user := none } (List.replicate 32 0) "u9" 0
    (by decide) rfl

end Boilerplate
